import Mathlib

/-!
Verification of the weeklyNewsEditor editorial pipeline.

Shallow embedding of the interactive workflow engine: the callback router
and state machine of `buttonClickHandler` (src/bot/handlers.ts), the
custom-prompt conversation (`newPromptConversation`, src/bot/conversations.ts),
the scraper cycle (`runScraper`, src/scraper.ts), the workflow context
store and deduplication index (src/storage.ts), and the retrying delivery
dispatcher (`sendMessageWithRetry`, src/utils.ts).

Transport calls (Telegram API) are modelled as effects emitted into a list;
fallible external calls (channel send, message edit, the OpenAI summary) are
modelled by boolean / optional oracle inputs.  JavaScript-specific semantics
that matter are embedded explicitly: `String.prototype.split(sep, 2)` keeps
only the first two segments, `x || y` treats the empty string as falsy, and
`.length` counts UTF-16 code units.
-/

namespace WeeklyNews

/-! ## Strings with JavaScript semantics -/

/-- JS `s.length`: the number of UTF-16 code units of the string
(characters above U+FFFF count as two units). -/
def utf16Len (s : String) : Nat :=
  s.data.foldl (fun n c => n + (if c.toNat < 65536 then 1 else 2)) 0

/-- JS `o || d` for `o : string | undefined`: `undefined` and the empty
string are falsy and select the fallback. -/
def jsOrOpt (o : Option String) (d : String) : String :=
  match o with
  | some s => if s = "" then d else s
  | none => d

/-- JS `s || d` for a plain string: the empty string is falsy. -/
def jsOrStr (s d : String) : String :=
  if s = "" then d else s

/-- JS truthiness of a `string | null` value: present and non-empty. -/
def jsTruthy (o : Option String) : Bool :=
  match o with
  | some s => decide (s ≠ "")
  | none => false

/-! ## Callback payload parsing (router boundary)

`buttonClickHandler` parses `callbackData.split(':', 2)` and reads
`parts[0]` and, when present, `parts[1]`.  ECMAScript `split` with a limit
first splits at every occurrence of the separator and then keeps the first
`limit` entries, so a payload `a:b:c` yields tag `a` and data `b`; the text
after the second `:` is discarded. -/

/-- The router's parse of a callback payload: the action tag is the text
before the first `:`; the data segment, present iff some `:` occurs, is the
text strictly between the first and the second `:` (to the end when there is
no second `:`). -/
def parseCallback (s : String) : String × Option String :=
  let cs := s.data
  let tagChars := cs.takeWhile (fun c => c ≠ ':')
  match cs.dropWhile (fun c => c ≠ ':') with
  | [] => (⟨tagChars⟩, none)
  | _ :: rest => (⟨tagChars⟩, some ⟨rest.takeWhile (fun c => c ≠ ':')⟩)

/-- Modelled from the spec: "Router must split on the first delimiter only",
i.e. the data segment is the entire remainder of the payload after the first
`:`, further `:` characters included.  Stated for comparison with
`parseCallback`, which embeds the source's `split(':', 2)`. -/
def parseCallbackFirstDelimOnly (s : String) : String × Option String :=
  let cs := s.data
  let tagChars := cs.takeWhile (fun c => c ≠ ':')
  match cs.dropWhile (fun c => c ≠ ':') with
  | [] => (⟨tagChars⟩, none)
  | _ :: rest => (⟨tagChars⟩, some ⟨rest⟩)

/-! ## Delivery Dispatcher (`sendMessageWithRetry`, src/utils.ts) -/

/-- An error thrown by one `api.sendMessage` attempt.  `rateLimited n`
stands for a `GrammyError` with `error_code === 429` and
`parameters.retry_after === n` (seconds); `other c` stands for every other
error, identified by a numeric code. -/
inductive SendErr where
  | rateLimited (retryAfterSec : Nat)
  | other (code : Nat)
deriving DecidableEq, Repr

/-- Result of a `sendMessageWithRetry` call.  Each constructor carries the
list of waits (in ms) performed before it was reached, in order. -/
inductive SendResult where
  | sent (waits : List Nat)
  | threw (e : SendErr) (waits : List Nat)
  | exhaustedError (waits : List Nat)
deriving DecidableEq, Repr

/-- Returns `true` iff the call did not succeed (it threw an attempt error or the
final generic delivery error). -/
def SendResult.isFailure : SendResult → Bool
  | .sent _ => false
  | .threw _ _ => true
  | .exhaustedError _ => true

/-- The retry loop of `sendMessageWithRetry`.  `attemptErr n` is the oracle
for attempt number `n` (`none` = the send succeeded).  `remaining` is
`maxRetries - attempts`, `a` the attempt counter, `d` the current backoff
delay in ms, `ws` the reversed list of waits performed so far.

On a 429 with a truthy (non-zero) `retry_after`, wait
`max(retry_after * 1000, currentDelay)` and double `currentDelay`; any other
error is re-thrown at once (the source throws in both remaining branches of
its `if`/`else`).  Falling out of the loop throws the generic delivery
error. -/
def sendGo (attemptErr : Nat → Option SendErr) :
    Nat → Nat → Nat → List Nat → SendResult
  | 0, _, _, ws => .exhaustedError ws.reverse
  | remaining + 1, a, d, ws =>
    match attemptErr a with
    | none => .sent ws.reverse
    | some (.rateLimited ra) =>
      if ra ≠ 0 then
        sendGo attemptErr remaining (a + 1) (d * 2) (max (ra * 1000) d :: ws)
      else
        .threw (.rateLimited ra) ws.reverse
    | some (.other c) => .threw (.other c) ws.reverse

/-- Function `sendMessageWithRetry` with explicit policy: `maxRetries` attempts,
initial backoff `initialDelay` ms (source defaults: 3 and 1000). -/
def sendMessageWithRetry (attemptErr : Nat → Option SendErr)
    (maxRetries initialDelay : Nat) : SendResult :=
  sendGo attemptErr maxRetries 0 initialDelay []

/-! ## Data model: keyboards, workflow contexts, store, session
(src/bot/keyboards.ts, src/storage.ts, src/types.ts) -/

/-- One inline-keyboard button: visible label and callback payload. -/
structure Button where
  label : String
  cbData : String
deriving DecidableEq, Repr

/-- An inline keyboard: rows of buttons (`inline_keyboard`). -/
abbrev Kb := List (List Button)

/-- Source `createMainKeyboard(messageStoreId)`: the three action rows, each
carrying `<tag>:<messageStoreId>` callback data. -/
def createMainKeyboard (messageStoreId : String) : Kb :=
  [[⟨"🤖 Send to GPT", "gpt:" ++ messageStoreId⟩],
   [⟨"📰 Send to News Channel", "chn:" ++ messageStoreId⟩],
   [⟨"✏️ New Prompt", "prm:" ++ messageStoreId⟩]]

/-- Source `createGptModelKeyboard()`: model-selection buttons with literal data. -/
def createGptModelKeyboard : Kb :=
  [[⟨"GPT-4o", "gpt:4o"⟩, ⟨"GPT-3.5 Turbo", "gpt:3.5t"⟩],
   [⟨"❌ Cancel", "gpt:cancel"⟩]]

/-- Source `createCancelKeyboard(messageStoreId)`: the single cancel row. -/
def createCancelKeyboard (messageStoreId : String) : Kb :=
  [[⟨"❌ Cancel New Prompt", "cnp:" ++ messageStoreId⟩]]

/-- Record `MessageData`: the mutable workflow context of one reviewable item,
keyed in the store by its `messageStoreId`. -/
structure MessageData where
  messageId : String
  originalMessageText : String
  keyboard : Option Kb
  cancelButton : List Button
  scrapedMessageContent : Option String := none
  gptGeneratedContent : Option String := none
deriving DecidableEq, Repr

/-- The in-memory `messageStore` object: a map from messageStoreId to
`MessageData` (a JS plain object used as a dictionary). -/
def Store := String → Option MessageData

/-- Source `storeMessageData(id, data)`: insert or overwrite. -/
def storeMessageData (id : String) (d : MessageData) (st : Store) : Store :=
  fun k => if k = id then some d else st k

/-- Source `getMessageData(id)`. -/
def getMessageData (id : String) (st : Store) : Option MessageData :=
  st id

/-- Source `deleteMessageData(id)`. -/
def deleteMessageData (id : String) (st : Store) : Store :=
  fun k => if k = id then none else st k

/-- Per-user session data (`SessionData`, src/types.ts): the sticky default
model and the pending custom-prompt slot. -/
structure Session where
  currentGptModel : Option String
  messageStoreIdForNewPrompt : Option String
deriving DecidableEq, Repr

/-! ## Observable effects

Outbound transport calls and control operations are recorded as a list of
effects, in program order.  Only calls that succeed produce a
`sendMessage` / edit effect; fallible calls are driven by oracle inputs. -/

/-- Destination chats named in config. -/
inductive ChatTarget where
  | editorsGroup
  | newsChannel
  | currentChat
deriving DecidableEq, Repr

/-- One observable side effect of a handler run. -/
inductive Effect where
  | answerCallback (text : Option String) (alert : Bool)
  | sendMessage (chat : ChatTarget) (text : String)
  | editMessageText (text : String) (kb : Option Kb)
  | editMessageReplyMarkup (kb : Kb)
  | reply (text : String)
  | enterConversation (name : String)
  | exitConversation
  | launchScrape
  | fetchContent (url : String)
deriving DecidableEq, Repr

/-! ## Callback Router (`buttonClickHandler`, src/bot/handlers.ts) -/

/-- Oracle inputs of one `buttonClickHandler` invocation: the raw payload,
the authorization verdict, and the outcomes of the fallible downstream
calls it may make. -/
structure HandlerInput where
  callbackData : String
  authorized : Bool
  /-- whether `api.sendMessage` to the news channel succeeds (`chn`). -/
  channelSendOk : Bool
  /-- whether the follow-up `editMessageText("Sent to news channel!")`
  inside the same `try` block succeeds (`chn`). -/
  publishEditOk : Bool
  /-- result of `generateGptSummary` (`null` = `none`). -/
  gptResult : Option String
  /-- the `uuidv4()` generated by `sendActionPrompt` for a new context. -/
  freshId : String
deriving Repr

/-- Result of one handler run: the store and session after it, the effects
emitted, and the list of tokens passed to `getMessageData` (in order). -/
structure HandlerResult where
  store : Store
  session : Session
  effects : List Effect
  lookups : List String

/-- Source `sendActionPrompt(ctx, text, scrapedContent)`: generate a fresh id,
store a new context carrying the main keyboard, then send the content and
the option prompt to the editors group.  The transport sends are modelled
as succeeding (the source's catch merely retries the option prompt). -/
def sendActionPrompt (freshId text : String) (scrapedContent : Option String)
    (st : Store) : Store × List Effect :=
  let keyboard := createMainKeyboard freshId
  let cancelKeyboard := createCancelKeyboard freshId
  let st' := storeMessageData freshId
    { messageId := freshId
      originalMessageText := text
      keyboard := some keyboard
      cancelButton := cancelKeyboard.headD []
      scrapedMessageContent := scrapedContent } st
  (st', [.sendMessage .editorsGroup text,
         .sendMessage .editorsGroup "Choose an option:"])

/-- Early-return result for a payload whose data segment is missing or not
36 UTF-16 units long: error acknowledgement plus a best-effort keyboard
strip, no lookup, no mutation. -/
def invalidCtxResult (sess : Session) (st : Store) : HandlerResult :=
  { store := st, session := sess
    effects := [.answerCallback (some "Error: Invalid or missing message context ID.") false,
                .editMessageReplyMarkup []]
    lookups := [] }

/-- Early-return result when `getMessageData` finds nothing for the token:
expired-context acknowledgement plus a best-effort keyboard strip. -/
def notFoundResult (sess : Session) (st : Store) (msid : String) : HandlerResult :=
  { store := st, session := sess
    effects := [.answerCallback (some "Error: Original message context not found (too old?).") false,
                .editMessageReplyMarkup []]
    lookups := [msid] }

/-- The `switch (queryPrefix)` over context-bearing actions, reached with a
validated token `msid` whose context `d` exists. -/
def dispatchAction (inp : HandlerInput) (tag msid : String) (d : MessageData)
    (sess : Session) (st : Store) : HandlerResult :=
  if tag = "gpt" then
    if jsTruthy inp.gptResult then
      let g := inp.gptResult.getD ""
      let d' := { d with gptGeneratedContent := inp.gptResult }
      let st1 := storeMessageData msid d' st
      let sent := sendActionPrompt inp.freshId g none st1
      { store := sent.1, session := sess
        effects := [.answerCallback (some "Processing with GPT...") false,
                    .sendMessage .editorsGroup "GPT Summary Generated:"]
                   ++ sent.2
                   ++ [.editMessageText "Original message processed by GPT. Summary posted below." (some [])]
        lookups := [msid] }
    else
      { store := st, session := sess
        effects := [.answerCallback (some "Processing with GPT...") false,
                    .sendMessage .editorsGroup "Sorry, failed to get a response from OpenAI."]
        lookups := [msid] }
  else if tag = "chn" then
    let textToSend := jsOrOpt d.gptGeneratedContent d.originalMessageText
    if inp.channelSendOk then
      if inp.publishEditOk then
        { store := deleteMessageData msid st, session := sess
          effects := [.answerCallback (some "Sending to news channel...") false,
                      .sendMessage .newsChannel textToSend,
                      .editMessageText "Sent to news channel!" (some [])]
          lookups := [msid] }
      else
        { store := st, session := sess
          effects := [.answerCallback (some "Sending to news channel...") false,
                      .sendMessage .newsChannel textToSend,
                      .sendMessage .editorsGroup "Failed to send message to the news channel."]
          lookups := [msid] }
    else
      { store := st, session := sess
        effects := [.answerCallback (some "Sending to news channel...") false,
                    .sendMessage .editorsGroup "Failed to send message to the news channel."]
        lookups := [msid] }
  else if tag = "prm" then
    { store := st
      session := { sess with messageStoreIdForNewPrompt := some msid }
      effects := [.answerCallback none false,
                  .editMessageText "Please reply with your custom prompt for GPT."
                    (some (createCancelKeyboard msid)),
                  .enterConversation "newPromptConversation"]
      lookups := [msid] }
  else if tag = "cnp" then
    match d.keyboard with
    | some kb =>
      { store := st, session := sess
        effects := [.answerCallback (some "Cancelled") false,
                    .editMessageText (jsOrStr d.originalMessageText "Choose an option:") (some kb),
                    .exitConversation]
        lookups := [msid] }
    | none =>
      { store := st, session := sess
        effects := [.answerCallback (some "Cancelled") false,
                    .editMessageText "New prompt cancelled." (some []),
                    .exitConversation]
        lookups := [msid] }
  else
    { store := st, session := sess
      effects := [.answerCallback (some "Unknown action") false]
      lookups := [msid] }

/-- Routing after the payload has been parsed into an action tag and an
optional data segment: the model-selection literals first, then the two
context-free actions, then the token-validated context-bearing actions. -/
def routeCallback (inp : HandlerInput) (tag : String) (dataPart : Option String)
    (sess : Session) (st : Store) : HandlerResult :=
  if tag = "gpt" ∧ (dataPart = some "4o" ∨ dataPart = some "3.5t" ∨ dataPart = some "cancel") then
    if dataPart = some "4o" then
      { store := st
        session := { sess with currentGptModel := some "gpt-4o" }
        effects := [.answerCallback (some "Model set to GPT-4o") false,
                    .editMessageText "Default OpenAI model set to GPT-4o." (some [])]
        lookups := [] }
    else if dataPart = some "3.5t" then
      { store := st
        session := { sess with currentGptModel := some "gpt-3.5-turbo" }
        effects := [.answerCallback (some "Model set to GPT-3.5 Turbo") false,
                    .editMessageText "Default OpenAI model set to GPT-3.5 Turbo." (some [])]
        lookups := [] }
    else
      { store := st, session := sess
        effects := [.answerCallback (some "Cancelled") false,
                    .editMessageText "GPT model selection cancelled." (some [])]
        lookups := [] }
  else if tag = "start_scraping" then
    { store := st, session := sess
      effects := [.answerCallback (some "Starting scraping process...") false,
                  .reply "Manual scraping process initiated. This might take a moment. Found articles will be sent to the editors group.",
                  .launchScrape]
      lookups := [] }
  else if tag = "support" then
    { store := st, session := sess
      effects := [.answerCallback none false,
                  .reply "For support, please contact the bot admin or check the project documentation."]
      lookups := [] }
  else
    match dataPart with
    | none => invalidCtxResult sess st
    | some msid =>
      if utf16Len msid = 36 then
        match getMessageData msid st with
        | none => notFoundResult sess st msid
        | some d => dispatchAction inp tag msid d sess st
      else
        invalidCtxResult sess st

/-- Source `buttonClickHandler`: authorization gate, payload parse, route. -/
def buttonClickHandler (inp : HandlerInput) (sess : Session) (st : Store) :
    HandlerResult :=
  if inp.authorized = false then
    { store := st, session := sess
      effects := [.answerCallback (some "Error: Unauthorized action.") true]
      lookups := [] }
  else
    routeCallback inp (parseCallback inp.callbackData).1
      (parseCallback inp.callbackData).2 sess st

/-! ## Prompt Conversation Controller (`newPromptConversation`,
src/bot/conversations.ts) -/

/-- Oracle inputs of one conversation run: the resolution of
`conversation.waitFor(":text")` (`some text`, or `none` when the resolved
update carried no usable text), the `generateGptSummary` outcome, and the
fresh id used by the helper that posts the rewritten item.  The edits that
display the input prompt are modelled on the main path (the entry callback
message is editable), as when entered from the `prm` button. -/
structure ConvInput where
  received : Option String
  gptResult : Option String
  freshId : String
deriving Repr

/-- Effects that restore the reviewer-facing message: both edits run only
when the stored `buttonLayout` is present (`messageData.keyboard` truthy). -/
def restoreKeyboardEffects (text : String) (d : MessageData) : List Effect :=
  match d.keyboard with
  | some kb => [.editMessageText text none, .editMessageReplyMarkup kb]
  | none => []

/-- The conversation body: read the pending token from the session, look up
its context, ask for the prompt, then resolve by text or by failure.  The
final session write `messageStoreIdForNewPrompt = undefined` sits at the end
of the function body, after the `if`/`else` — the two early `return`
statements (no token in the session; token present but context missing)
leave the session untouched. -/
def newPromptConversation (cinp : ConvInput) (sess : Session) (st : Store) :
    Session × Store × List Effect :=
  match sess.messageStoreIdForNewPrompt with
  | none =>
    (sess, st, [.reply "Error: Could not find the context for the new prompt. Please try again."])
  | some msid =>
    match getMessageData msid st with
    | none =>
      (sess, st, [.reply "Error: Could not find the original message context. It might be too old.",
                  .editMessageReplyMarkup []])
    | some d =>
      let askEffects : List Effect :=
        [.editMessageText "Please enter the new prompt for ChatGPT:" none,
         .editMessageReplyMarkup (createCancelKeyboard msid)]
      match cinp.received with
      | some _ =>
        if jsTruthy cinp.gptResult then
          let g := cinp.gptResult.getD ""
          let sent := sendActionPrompt cinp.freshId g none st
          ({ sess with messageStoreIdForNewPrompt := none }, sent.1,
           askEffects ++ [.reply "Processing with new prompt..."] ++ sent.2)
        else
          ({ sess with messageStoreIdForNewPrompt := none }, st,
           askEffects ++ [.reply "Processing with new prompt...",
                          .reply "Sorry, failed to get a response from OpenAI with the new prompt."]
                      ++ restoreKeyboardEffects "Failed. Choose an option:" d)
      | none =>
        ({ sess with messageStoreIdForNewPrompt := none }, st,
         askEffects ++ [.reply "Did not receive a valid prompt. Cancelling."]
                    ++ restoreKeyboardEffects "Cancelled. Choose an option:" d)

/-! ## Scraper cycle (`runScraper`, src/scraper.ts) and the
Deduplication Index (`newsList`, src/storage.ts) -/

/-- One article slot of a scrape cycle, with its oracle outcomes: the
extracted title and link (empty string = extraction failed, JS falsy), the
`scrapeArticleContent` result, whether each of the two notification sends
to the editors group succeeds, and the generated context id. -/
structure ScrapeInput where
  title : String
  link : String
  content : Option String
  send1Ok : Bool
  send2Ok : Bool
  freshId : String
deriving Repr

/-- The scraper-visible mutable state: the deduplication index (a set of
`fullFormattedMessage` strings) and the message store. -/
structure ScrapeState where
  newsList : List String
  store : Store

/-- The cheap pre-fetch identifier built in `runScraper`:
`` `${title}\nLink:${link}` ``. -/
def tempFullIdentifier (title link : String) : String :=
  title ++ "\nLink:" ++ link

/-- Field `fullFormattedMessage`: `` `${title}\n\n${summary}\n\nLink: ${link}` ``. -/
def fullFormatted (title summary link : String) : String :=
  title ++ "\n\n" ++ summary ++ "\n\nLink: " ++ link

/-- Field `linkOnlyMessage`: `` `📰 Scraped News:\n${title}\nLink: ${link}` ``. -/
def linkOnlyMessage (title link : String) : String :=
  "📰 Scraped News:\n" ++ title ++ "\nLink: " ++ link

/-- Source `addSentNews`: add the article's `fullFormattedMessage` to the set. -/
def addSentNews (fullMsg : String) (l : List String) : List String :=
  l.insert fullMsg

/-- Source `hasNewsBeenSent`: membership of the `fullFormattedMessage` field. -/
def hasNewsBeenSent (fullMsg : String) (l : List String) : Bool :=
  decide (fullMsg ∈ l)

/-- The per-article body of the `runScraper` loop.  Returns the state after
the article, the effects emitted (a `fetchContent` for the
`scrapeArticleContent` call, then any successful sends), and `some fp` iff
the article was fully delivered (both sends succeeded, so `addSentNews`
ran on fingerprint `fp`).  A send that throws emits no effect; the `catch`
skips `addSentNews`. -/
def processArticle (st : ScrapeState) (a : ScrapeInput) :
    ScrapeState × List Effect × Option String :=
  if a.title = "" ∨ a.link = "" then (st, [], none)
  else if tempFullIdentifier a.title a.link ∈ st.newsList then (st, [], none)
  else
    match a.content with
    | none => (st, [.fetchContent a.link], none)
    | some summary =>
      let fullMsg := fullFormatted a.title summary a.link
      if fullMsg ∈ st.newsList then (st, [.fetchContent a.link], none)
      else
        let lm := linkOnlyMessage a.title a.link
        let newData : MessageData :=
          { messageId := a.freshId
            originalMessageText := lm
            keyboard := some (createMainKeyboard a.freshId)
            cancelButton := (createCancelKeyboard a.freshId).headD []
            scrapedMessageContent := some fullMsg }
        let st1 : ScrapeState :=
          { st with store := storeMessageData a.freshId newData st.store }
        if a.send1Ok then
          if a.send2Ok then
            ({ st1 with newsList := addSentNews fullMsg st1.newsList },
             [.fetchContent a.link,
              .sendMessage .editorsGroup lm,
              .sendMessage .editorsGroup "Choose an option for scraped news:"],
             some fullMsg)
          else
            (st1, [.fetchContent a.link, .sendMessage .editorsGroup lm], none)
        else
          (st1, [.fetchContent a.link], none)

/-- One scrape cycle over the articles found on the home page: the state
after the cycle, all effects, and the fingerprints fully delivered. -/
def runScraperCycle (st : ScrapeState) :
    List ScrapeInput → ScrapeState × List Effect × List String
  | [] => (st, [], [])
  | a :: rest =>
    let r := processArticle st a
    let rr := runScraperCycle r.1 rest
    (rr.1, r.2.1 ++ rr.2.1, r.2.2.toList ++ rr.2.2)

/-- A sequence of scrape cycles threading the shared state, returning the
final state and every fingerprint fully delivered across all cycles. -/
def runCycles (st : ScrapeState) :
    List (List ScrapeInput) → ScrapeState × List String
  | [] => (st, [])
  | c :: cs =>
    let r := runScraperCycle st c
    let rr := runCycles r.1 cs
    (rr.1, r.2.2 ++ rr.2)

/-! ## Concrete fixtures used to evaluate the definitions -/

/-- Attempt oracle: every attempt fails with a 429 carrying
`retry_after = 5` seconds. -/
def attemptRate5 : Nat → Option SendErr :=
  fun _ => some (.rateLimited 5)

/-- Attempt oracle: attempt 0 is rate-limited (retry-after 5 s), attempt 1
throws a non-rate-limit error with code 7. -/
def attemptRateThenOther : Nat → Option SendErr :=
  fun n => if n = 0 then some (.rateLimited 5) else some (.other 7)

/-- A 36-character token (valid wire format). -/
def tok36 : String :=
  "00000000-0000-4000-8000-000000000000"

/-- A second, distinct 36-character token. -/
def tok36b : String :=
  "11111111-0000-4000-8000-000000000000"

/-- A concrete stored workflow context for `tok36`. -/
def sampleData : MessageData :=
  { messageId := tok36
    originalMessageText := "original text"
    keyboard := some (createMainKeyboard tok36)
    cancelButton := (createCancelKeyboard tok36).headD []
    scrapedMessageContent := none
    gptGeneratedContent := some "rewritten text" }

/-- A store holding exactly the context of `tok36`. -/
def sampleStore : Store :=
  fun k => if k = tok36 then some sampleData else none

/-- A session with no pending prompt and no sticky model override. -/
def emptySession : Session :=
  { currentGptModel := none, messageStoreIdForNewPrompt := none }

/-- The scraper state at process start: empty index, empty store. -/
def emptyScrapeState : ScrapeState :=
  { newsList := [], store := fun _ => none }

/-- A concrete scraped article whose fetches and sends all succeed. -/
def articleA : ScrapeInput :=
  { title := "T", link := "L", content := some "S",
    send1Ok := true, send2Ok := true, freshId := tok36 }

/-- The same article rescraped in a later cycle (fresh context id). -/
def articleA2 : ScrapeInput :=
  { articleA with freshId := tok36b }

/-- A store with no contexts. -/
def emptyStore : Store :=
  fun _ => none

/-- A scrape state whose index already contains the full fingerprint of
`articleA`. -/
def seenScrapeState : ScrapeState :=
  { newsList := [fullFormatted "T" "S" "L"], store := fun _ => none }

/-- A publish click on `tok36` whose downstream calls all succeed. -/
def publishInput : HandlerInput :=
  { callbackData := "chn:" ++ tok36, authorized := true,
    channelSendOk := true, publishEditOk := true,
    gptResult := none, freshId := tok36b }

/-- A cancel-prompt click on `tok36`. -/
def cancelInput : HandlerInput :=
  { callbackData := "cnp:" ++ tok36, authorized := true,
    channelSendOk := true, publishEditOk := true,
    gptResult := none, freshId := tok36b }

/-- A context-bearing click whose data segment is shorter than 36 units. -/
def shortTokenInput : HandlerInput :=
  { callbackData := "chn:short", authorized := true,
    channelSendOk := true, publishEditOk := true,
    gptResult := none, freshId := tok36b }

/-- A click with an unrecognized action tag and a valid token. -/
def unknownTagInput : HandlerInput :=
  { callbackData := "zzz:" ++ tok36, authorized := true,
    channelSendOk := true, publishEditOk := true,
    gptResult := none, freshId := tok36b }

/-- A session whose pending-prompt slot holds `tok36`. -/
def pendingSession : Session :=
  { currentGptModel := none, messageStoreIdForNewPrompt := some tok36 }

/-- A store holding the context of `tok36` with no stored rewrite. -/
def sampleStoreNoGpt : Store :=
  fun k => if k = tok36 then some { sampleData with gptGeneratedContent := none } else none

/-- A conversation resolution: text received, rewrite succeeded. -/
def textOkConv : ConvInput :=
  { received := some "make it shorter", gptResult := some "short version", freshId := tok36b }

/-- A conversation resolution: text received, rewrite failed. -/
def textFailConv : ConvInput :=
  { received := some "make it shorter", gptResult := none, freshId := tok36b }

/-- A conversation resolution that carried no usable text. -/
def noTextConv : ConvInput :=
  { received := none, gptResult := none, freshId := tok36b }

/-! # Theorems -/

/-! ## Delivery Dispatcher (claims C3 and C6) -/

/-- Helper: when every attempt in the remaining window fails, the loop
never returns success. -/
theorem sendGo_isFailure_of_all_fail (f : Nat → Option SendErr) :
    ∀ (r a d : Nat) (ws : List Nat),
      (∀ i, i < r → f (a + i) ≠ none) →
      (sendGo f r a d ws).isFailure = true := by
  intro r
  induction r with
  | zero => intro a d ws _; rfl
  | succ r ih =>
    intro a d ws hall
    have h0 : f a ≠ none := by
      have := hall 0 (Nat.succ_pos r)
      simpa using this
    cases hfa : f a with
    | none => exact absurd hfa h0
    | some e =>
      cases e with
      | rateLimited ra =>
        by_cases hra : ra = 0
        · simp [sendGo, hfa, hra, SendResult.isFailure]
        · have hrest : ∀ i, i < r → f (a + 1 + i) ≠ none := by
            intro i hi
            have := hall (i + 1) (by omega)
            simpa [Nat.add_assoc, Nat.add_comm 1 i] using this
          simpa [sendGo, hfa, hra] using ih (a + 1) (d * 2) (max (ra * 1000) d :: ws) hrest
      | other c =>
        simp [sendGo, hfa, SendResult.isFailure]

/-- C3: the Dispatcher retry policy.  A rate-limited attempt (429 with a
truthy server retry-after) waits `max(retryAfter * 1000, currentDelay)` and
doubles the backoff for the next round, with the backoff starting from
`initialDelay`; any non-rate-limit error is re-thrown immediately with no
further attempt; and when every allowed attempt fails the call fails with a
delivery error (the attempt error or the exhausted-retries error), in
particular under the default policy of 3 attempts and 1-second initial
backoff. -/
theorem dispatcher_retry_policy (f : Nat → Option SendErr)
    (r a d : Nat) (ws : List Nat) (maxRetries initialDelay : Nat) :
    (sendMessageWithRetry f maxRetries initialDelay
        = sendGo f maxRetries 0 initialDelay []) ∧
    (∀ ra, f a = some (.rateLimited ra) → ra ≠ 0 →
      sendGo f (r + 1) a d ws
        = sendGo f r (a + 1) (d * 2) (max (ra * 1000) d :: ws)) ∧
    (∀ c, f a = some (.other c) →
      sendGo f (r + 1) a d ws = .threw (.other c) ws.reverse) ∧
    ((∀ i, i < maxRetries → f i ≠ none) →
      (sendMessageWithRetry f maxRetries initialDelay).isFailure = true) := by
  refine ⟨rfl, ?_, ?_, ?_⟩
  · intro ra hfa hra
    simp [sendGo, hfa, hra]
  · intro c hfa
    simp [sendGo, hfa]
  · intro hall
    have := sendGo_isFailure_of_all_fail f maxRetries 0 initialDelay [] ?_
    · exact this
    · intro i hi
      simpa using hall i hi

/-- Witness for C3: the policy evaluated on a concrete oracle whose first
attempt is rate-limited (retry-after 5 s) and whose second attempt throws a
non-rate-limit error. -/
theorem dispatcher_retry_policy_witness :
    (sendMessageWithRetry attemptRateThenOther 3 1000
        = sendGo attemptRateThenOther 3 0 1000 []) ∧
    (sendGo attemptRateThenOther 3 0 1000 []
        = sendGo attemptRateThenOther 2 1 (1000 * 2) (max (5 * 1000) 1000 :: [])) ∧
    (sendGo attemptRateThenOther 2 1 (1000 * 2) (max (5 * 1000) 1000 :: [])
        = .threw (.other 7) [max (5 * 1000) 1000]) ∧
    (sendMessageWithRetry attemptRate5 3 1000).isFailure = true := by
  obtain ⟨h1, h2, -, -⟩ :=
    dispatcher_retry_policy attemptRateThenOther 2 0 1000 [] 3 1000
  obtain ⟨-, -, h3, -⟩ :=
    dispatcher_retry_policy attemptRateThenOther 1 1 (1000 * 2)
      (max (5 * 1000) 1000 :: []) 3 1000
  obtain ⟨-, -, -, h4⟩ :=
    dispatcher_retry_policy attemptRate5 0 0 0 [] 3 1000
  refine ⟨h1, h2 5 rfl (by decide), ?_, h4 ?_⟩
  · simpa using h3 7 rfl
  · intro i _
    simp [attemptRate5]

/-- C6 counterexample: with every attempt rate-limited at
`retry_after = 5 s` and `initialDelay = 1 s`, the first actual wait is
5000 ms, the backoff component entering the second retry is the doubled
initial delay 2000 ms, and the second actual wait is again 5000 ms — both
strictly below the 10000 ms (double the first actual wait) the claim
demands. -/
theorem backoff_double_claim_counterexample :
    sendMessageWithRetry attemptRate5 3 1000
        = .exhaustedError [5000, 5000, 5000] ∧
    sendGo attemptRate5 3 0 1000 []
        = sendGo attemptRate5 2 1 2000 [5000] ∧
    ¬ (2 * 5000 ≤ 2000) ∧ ¬ (2 * 5000 ≤ 5000) := by
  refine ⟨by decide, by decide, by decide, by decide⟩

/-- C6 (amended): with `retry-after = 5 s` on the first two attempts and
`initialDelay = 1 s`, the first retry waits `max(5000, 1000) = 5000 ≥
5000 ms`; the backoff component applied to the second retry is the doubled
initial backoff `1000 * 2 = 2000 ms` (the doubling acts on the backoff
counter, not on the actual wait), and the second actual wait is
`max(5000, 2000) = 5000 ms`. -/
theorem backoff_after_two_rate_limits (f : Nat → Option SendErr)
    (h0 : f 0 = some (.rateLimited 5)) (h1 : f 1 = some (.rateLimited 5))
    (r : Nat) :
    sendGo f (r + 2) 0 1000 []
        = sendGo f (r + 1) 1 (1000 * 2) [max (5 * 1000) 1000] ∧
    sendGo f (r + 1) 1 (1000 * 2) [max (5 * 1000) 1000]
        = sendGo f r 2 ((1000 * 2) * 2)
            [max (5 * 1000) (1000 * 2), max (5 * 1000) 1000] ∧
    5 * 1000 ≤ max (5 * 1000) 1000 ∧
    1000 * 2 = 2 * 1000 ∧
    max (5 * 1000) (1000 * 2) = 5 * 1000 := by
  refine ⟨by simp [sendGo, h0], by simp [sendGo, h1], by decide, by decide, by decide⟩

/-- Witness for the amended C6 at the concrete all-rate-limited oracle. -/
theorem backoff_after_two_rate_limits_witness :
    sendGo attemptRate5 3 0 1000 []
        = sendGo attemptRate5 2 1 (1000 * 2) [max (5 * 1000) 1000] ∧
    sendGo attemptRate5 2 1 (1000 * 2) [max (5 * 1000) 1000]
        = sendGo attemptRate5 1 2 ((1000 * 2) * 2)
            [max (5 * 1000) (1000 * 2), max (5 * 1000) 1000] := by
  obtain ⟨h1, h2, -, -, -⟩ := backoff_after_two_rate_limits attemptRate5 rfl rfl 1
  exact ⟨h1, h2⟩

/-! ## Callback payload parsing (claim C7) -/

/-- Helper: taking and dropping up to the first `:` across a colon-free
block. -/
theorem takeWhile_dropWhile_colon (rest : List Char) :
    ∀ (l : List Char), (':' : Char) ∉ l →
      (l ++ ':' :: rest).takeWhile (fun c => c ≠ ':') = l ∧
      (l ++ ':' :: rest).dropWhile (fun c => c ≠ ':') = ':' :: rest := by
  intro l
  induction l with
  | nil => intro _; constructor <;> simp [List.takeWhile, List.dropWhile]
  | cons a l ih =>
    intro h
    have ha : a ≠ ':' := fun hc => h (hc ▸ List.mem_cons_self a l)
    have hl : (':' : Char) ∉ l := fun hc => h (List.mem_cons_of_mem a hc)
    obtain ⟨iht, ihd⟩ := ih hl
    constructor
    · rw [List.cons_append, List.takeWhile_cons_of_pos (by simp [ha]), iht]
    · rw [List.cons_append, List.dropWhile_cons_of_pos (by simp [ha]), ihd]

/-- C7 counterexample: on the payload `"a:b:c"`, which contains two `:`
characters, the router's parse yields data segment `"b"`, not the entire
remainder `"b:c"` that the claim asserts (and that the spec-modelled
first-delimiter-only split would yield). -/
theorem router_split_claim_counterexample :
    parseCallback "a:b:c" = ("a", some "b") ∧
    (parseCallback "a:b:c").2 ≠ some "b:c" ∧
    parseCallbackFirstDelimOnly "a:b:c" = ("a", some "b:c") := by
  refine ⟨by decide, by decide, by decide⟩

/-- C7 (amended): for a payload with more than one `:`, the action tag is
the text before the first `:` and the data segment is the text strictly
between the first and the second `:`; anything after the second `:` is
discarded (ECMAScript `split(':', 2)` keeps only the first two
segments). -/
theorem router_split_first_two_segments (t b c : String)
    (ht : (':' : Char) ∉ t.data) (hb : (':' : Char) ∉ b.data) :
    parseCallback (t ++ ":" ++ b ++ ":" ++ c) = (t, some b) := by
  have hdata : (t ++ ":" ++ b ++ ":" ++ c).data
      = t.data ++ ':' :: (b.data ++ ':' :: c.data) := by
    simp [String.data_append]
  obtain ⟨ht1, ht2⟩ := takeWhile_dropWhile_colon (b.data ++ ':' :: c.data) t.data ht
  obtain ⟨hb1, -⟩ := takeWhile_dropWhile_colon c.data b.data hb
  simp only [parseCallback, hdata, ht1, ht2, hb1]

/-- Witness for the amended C7 at a concrete multi-colon payload. -/
theorem router_split_first_two_segments_witness :
    parseCallback ("act" ++ ":" ++ "tok" ++ ":" ++ "rest") = ("act", some "tok") := by
  exact router_split_first_two_segments "act" "tok" "rest" (by decide) (by decide)

/-! ## Callback Router: publish and validation (claims C1, C9, C10) -/

/-- Helper: the shape of a fully successful publish (`chn`) invocation. -/
theorem handler_chn_success_eq (inp : HandlerInput) (sess : Session) (st : Store)
    (t : String) (d : MessageData)
    (hp : parseCallback inp.callbackData = ("chn", some t))
    (ha : inp.authorized = true) (hok : inp.channelSendOk = true)
    (hedit : inp.publishEditOk = true)
    (hlen : utf16Len t = 36) (hst : st t = some d) :
    buttonClickHandler inp sess st =
      { store := deleteMessageData t st, session := sess
        effects := [.answerCallback (some "Sending to news channel...") false,
                    .sendMessage .newsChannel (jsOrOpt d.gptGeneratedContent d.originalMessageText),
                    .editMessageText "Sent to news channel!" (some [])]
        lookups := [t] } := by
  simp only [buttonClickHandler, ha, hp, routeCallback, getMessageData, hlen, hst,
             dispatchAction, hok, hedit]
  simp

/-- Helper: the shape of a publish whose channel send succeeds but whose
follow-up edit throws (the context is then not deleted). -/
theorem handler_chn_editfail_eq (inp : HandlerInput) (sess : Session) (st : Store)
    (t : String) (d : MessageData)
    (hp : parseCallback inp.callbackData = ("chn", some t))
    (ha : inp.authorized = true) (hok : inp.channelSendOk = true)
    (hedit : inp.publishEditOk = false)
    (hlen : utf16Len t = 36) (hst : st t = some d) :
    buttonClickHandler inp sess st =
      { store := st, session := sess
        effects := [.answerCallback (some "Sending to news channel...") false,
                    .sendMessage .newsChannel (jsOrOpt d.gptGeneratedContent d.originalMessageText),
                    .sendMessage .editorsGroup "Failed to send message to the news channel."]
        lookups := [t] } := by
  simp only [buttonClickHandler, ha, hp, routeCallback, getMessageData, hlen, hst,
             dispatchAction, hok, hedit]
  simp

/-- Helper: a context-bearing click whose token has no stored context is
answered with the expired acknowledgement and a keyboard strip. -/
theorem handler_chn_not_found_eq (inp : HandlerInput) (sess : Session) (st : Store)
    (t : String)
    (hp : parseCallback inp.callbackData = ("chn", some t))
    (ha : inp.authorized = true)
    (hlen : utf16Len t = 36) (hst : st t = none) :
    buttonClickHandler inp sess st = notFoundResult sess st t := by
  simp only [buttonClickHandler, ha, hp, routeCallback, getMessageData, hlen, hst]
  simp

/-- C1: a successful publish deletes the token's context, so a second
publish click with the same token finds no context: it sends nothing to
the publish channel, leaves the store exactly as it was, and is answered
with the context-not-found acknowledgement plus a best-effort keyboard
strip. -/
theorem publish_at_most_once
    (inp1 inp2 : HandlerInput) (sess1 sess2 : Session) (st : Store)
    (t : String) (d : MessageData)
    (hp1 : parseCallback inp1.callbackData = ("chn", some t))
    (ha1 : inp1.authorized = true)
    (hok : inp1.channelSendOk = true) (hedit : inp1.publishEditOk = true)
    (hlen : utf16Len t = 36) (hst : st t = some d)
    (hp2 : parseCallback inp2.callbackData = ("chn", some t))
    (ha2 : inp2.authorized = true) :
    (buttonClickHandler inp1 sess1 st).store t = none ∧
    Effect.sendMessage .newsChannel (jsOrOpt d.gptGeneratedContent d.originalMessageText)
      ∈ (buttonClickHandler inp1 sess1 st).effects ∧
    buttonClickHandler inp2 sess2 (buttonClickHandler inp1 sess1 st).store
      = notFoundResult sess2 (buttonClickHandler inp1 sess1 st).store t ∧
    (∀ txt, Effect.sendMessage .newsChannel txt
      ∉ (buttonClickHandler inp2 sess2 (buttonClickHandler inp1 sess1 st).store).effects) := by
  have h1 := handler_chn_success_eq inp1 sess1 st t d hp1 ha1 hok hedit hlen hst
  have hstored : (buttonClickHandler inp1 sess1 st).store t = none := by
    rw [h1]
    simp [deleteMessageData]
  have h2 := handler_chn_not_found_eq inp2 sess2
    (buttonClickHandler inp1 sess1 st).store t hp2 ha2 hlen hstored
  refine ⟨hstored, ?_, h2, ?_⟩
  · rw [h1]
    simp
  · intro txt
    rw [h2]
    simp [notFoundResult]

/-- Witness for C1 on a concrete store and a concrete pair of identical
publish clicks. -/
theorem publish_at_most_once_witness :
    (buttonClickHandler publishInput emptySession sampleStore).store tok36 = none ∧
    Effect.sendMessage .newsChannel
        (jsOrOpt sampleData.gptGeneratedContent sampleData.originalMessageText)
      ∈ (buttonClickHandler publishInput emptySession sampleStore).effects ∧
    buttonClickHandler publishInput emptySession
        (buttonClickHandler publishInput emptySession sampleStore).store
      = notFoundResult emptySession
          (buttonClickHandler publishInput emptySession sampleStore).store tok36 := by
  obtain ⟨h1, h2, h3, -⟩ :=
    publish_at_most_once publishInput publishInput emptySession emptySession
      sampleStore tok36 sampleData (by decide) rfl rfl rfl (by decide) (by decide)
      (by decide) rfl
  exact ⟨h1, h2, h3⟩

/-- C9: an authorized click whose action needs a workflow context but whose
data segment is missing or not exactly 36 UTF-16 units long is answered
with the invalid-context acknowledgement and the store is never consulted;
and an unrecognized action tag carrying a valid token with an existing
context is answered with the explicit Unknown-action acknowledgement. -/
theorem router_rejects_malformed (inp : HandlerInput) (sess : Session) (st : Store)
    (tag : String) (dataPart : Option String)
    (hp : parseCallback inp.callbackData = (tag, dataPart))
    (ha : inp.authorized = true)
    (hng : ¬ (tag = "gpt" ∧ (dataPart = some "4o" ∨ dataPart = some "3.5t" ∨ dataPart = some "cancel")))
    (hns : tag ≠ "start_scraping") (hnsup : tag ≠ "support") :
    ((dataPart = none ∨ ∀ t, dataPart = some t → utf16Len t ≠ 36) →
      buttonClickHandler inp sess st = invalidCtxResult sess st) ∧
    (∀ t d, dataPart = some t → utf16Len t = 36 → st t = some d →
      tag ≠ "gpt" → tag ≠ "chn" → tag ≠ "prm" → tag ≠ "cnp" →
      buttonClickHandler inp sess st
        = { store := st, session := sess
            effects := [.answerCallback (some "Unknown action") false]
            lookups := [t] }) := by
  constructor
  · intro hbad
    simp only [buttonClickHandler, ha, hp, routeCallback, if_neg hng, if_neg hns,
               if_neg hnsup]
    simp only [Bool.true_eq_false, if_false]
    cases hd : dataPart with
    | none => rfl
    | some t =>
      rcases hbad with hnone | hlen
      · simp [hd] at hnone
      · have := hlen t hd
        simp [this]
  · intro t d hd hlen hst hg hc hprm hcnp
    simp only [buttonClickHandler, ha, hp, hd, routeCallback, if_neg hns, if_neg hnsup]
    have hng' : ¬ (tag = "gpt" ∧ (some t = some "4o" ∨ some t = some "3.5t" ∨ some t = some "cancel")) := by
      intro hcon
      exact hg hcon.1
    simp only [if_neg hng', Bool.true_eq_false, if_false]
    simp only [getMessageData, hlen, hst, if_pos rfl]
    simp only [dispatchAction, if_neg hg, if_neg hc, if_neg hprm, if_neg hcnp]
    simp

/-- Witness for C9: a too-short token and an unrecognized tag, both on the
concrete sample store. -/
theorem router_rejects_malformed_witness :
    buttonClickHandler shortTokenInput emptySession sampleStore
      = invalidCtxResult emptySession sampleStore ∧
    buttonClickHandler unknownTagInput emptySession sampleStore
      = { store := sampleStore, session := emptySession
          effects := [.answerCallback (some "Unknown action") false]
          lookups := [tok36] } := by
  constructor
  · obtain ⟨h1, -⟩ :=
      router_rejects_malformed shortTokenInput emptySession sampleStore
        "chn" (some "short") (by decide) rfl (by decide) (by decide) (by decide)
    exact h1 (Or.inr (by intro t ht; cases ht; decide))
  · obtain ⟨-, h2⟩ :=
      router_rejects_malformed unknownTagInput emptySession sampleStore
        "zzz" (some tok36) (by decide) rfl (by decide) (by decide) (by decide)
    exact h2 tok36 sampleData rfl (by decide) (by decide)
      (by decide) (by decide) (by decide) (by decide)

/-- C10: a publish on an existing context sends the stored rewritten text
when a successful rewrite stored one (a non-empty `gptGeneratedContent`),
and the context's original message text when no rewrite is stored. -/
theorem publish_text_selection (inp : HandlerInput) (sess : Session) (st : Store)
    (t : String) (d : MessageData)
    (hp : parseCallback inp.callbackData = ("chn", some t))
    (ha : inp.authorized = true) (hok : inp.channelSendOk = true)
    (hlen : utf16Len t = 36) (hst : st t = some d) :
    (∀ g, d.gptGeneratedContent = some g → g ≠ "" →
      Effect.sendMessage .newsChannel g ∈ (buttonClickHandler inp sess st).effects) ∧
    (d.gptGeneratedContent = none →
      Effect.sendMessage .newsChannel d.originalMessageText
        ∈ (buttonClickHandler inp sess st).effects) := by
  have hsel : ∀ (txt : String), jsOrOpt d.gptGeneratedContent d.originalMessageText = txt →
      Effect.sendMessage .newsChannel txt ∈ (buttonClickHandler inp sess st).effects := by
    intro txt htxt
    cases hedit : inp.publishEditOk with
    | true =>
      rw [handler_chn_success_eq inp sess st t d hp ha hok hedit hlen hst, htxt]
      simp
    | false =>
      rw [handler_chn_editfail_eq inp sess st t d hp ha hok hedit hlen hst, htxt]
      simp
  constructor
  · intro g hg hne
    exact hsel g (by simp [jsOrOpt, hg, hne])
  · intro hg
    exact hsel d.originalMessageText (by simp [jsOrOpt, hg])

/-- Witness for C10: the sample context with a stored rewrite publishes the
rewrite; the variant without one publishes the original text. -/
theorem publish_text_selection_witness :
    Effect.sendMessage .newsChannel "rewritten text"
      ∈ (buttonClickHandler publishInput emptySession sampleStore).effects ∧
    Effect.sendMessage .newsChannel "original text"
      ∈ (buttonClickHandler publishInput emptySession sampleStoreNoGpt).effects := by
  constructor
  · obtain ⟨h1, -⟩ :=
      publish_text_selection publishInput emptySession sampleStore tok36 sampleData
        (by decide) rfl rfl (by decide) (by decide)
    exact h1 "rewritten text" rfl (by decide)
  · obtain ⟨-, h2⟩ :=
      publish_text_selection publishInput emptySession sampleStoreNoGpt tok36
        { sampleData with gptGeneratedContent := none }
        (by decide) rfl rfl (by decide) (by decide)
    exact h2 rfl

/-! ## Prompt Conversation Controller exit paths (claim C5) -/

/-- C5 counterexample: the cancel control (`cnp`) and the
missing-context-at-entry path leave the pending-prompt slot set.  On a
session whose slot holds `tok36`, the concrete cancel click leaves the slot
equal to `some tok36` (not cleared), and entering the conversation with the
slot set but the context evicted returns with the slot still `some
tok36`. -/
theorem prompt_slot_claim_counterexample :
    (buttonClickHandler cancelInput pendingSession sampleStore).session.messageStoreIdForNewPrompt
      = some tok36 ∧
    some tok36 ≠ (none : Option String) ∧
    (newPromptConversation noTextConv pendingSession emptyStore).1.messageStoreIdForNewPrompt
      = some tok36 := by
  refine ⟨by decide, by decide, by decide⟩

/-- C5 (amended): the three conversation resolutions (text with rewrite
success, text with rewrite failure, non-text resolution) all clear the
pending-prompt slot, and entry with an empty slot leaves it empty; but the
missing-context-at-entry return leaves the session (hence the slot)
unchanged, and the cancel control's handler leaves the session unchanged
in every case, so the cancel path does not clear the slot. -/
theorem prompt_slot_exit_paths (cinp : ConvInput) (sess : Session) (st : Store)
    (msid : String) (d : MessageData) :
    (sess.messageStoreIdForNewPrompt = some msid → st msid = some d →
      (newPromptConversation cinp sess st).1.messageStoreIdForNewPrompt = none) ∧
    (sess.messageStoreIdForNewPrompt = none →
      (newPromptConversation cinp sess st).1 = sess) ∧
    (sess.messageStoreIdForNewPrompt = some msid → st msid = none →
      (newPromptConversation cinp sess st).1 = sess) ∧
    (∀ (inp : HandlerInput) (t : String),
      parseCallback inp.callbackData = ("cnp", some t) → inp.authorized = true →
      (buttonClickHandler inp sess st).session = sess) := by
  refine ⟨?_, ?_, ?_, ?_⟩
  · intro hslot hst
    simp only [newPromptConversation, hslot, getMessageData, hst]
    cases cinp.received with
    | none => simp
    | some s => cases h : jsTruthy cinp.gptResult <;> simp [h]
  · intro hslot
    simp [newPromptConversation, hslot]
  · intro hslot hst
    simp [newPromptConversation, hslot, getMessageData, hst]
  · intro inp t hp ha
    simp only [buttonClickHandler, ha, hp, routeCallback]
    simp only [Bool.true_eq_false, if_false]
    have : ¬ (("cnp" : String) = "gpt" ∧ (some t = some "4o" ∨ some t = some "3.5t" ∨ some t = some "cancel")) := by
      simp
    rw [if_neg this]
    by_cases h36 : utf16Len t = 36
    · simp only [getMessageData, h36]
      cases hst : st t with
      | none => simp [notFoundResult]
      | some d' =>
        simp only [dispatchAction]
        cases d'.keyboard <;> simp
    · simp [h36, invalidCtxResult]

/-- Witness for the amended C5 on the concrete pending session: the
rewrite-success resolution clears the slot, and the missing-context entry
leaves it set. -/
theorem prompt_slot_exit_paths_witness :
    (newPromptConversation textOkConv pendingSession sampleStore).1.messageStoreIdForNewPrompt
      = none ∧
    (newPromptConversation noTextConv pendingSession emptyStore).1 = pendingSession ∧
    (buttonClickHandler cancelInput pendingSession sampleStore).session = pendingSession := by
  obtain ⟨h1, -, -, -⟩ :=
    prompt_slot_exit_paths textOkConv pendingSession sampleStore tok36 sampleData
  obtain ⟨-, -, h3, h4⟩ :=
    prompt_slot_exit_paths noTextConv pendingSession emptyStore tok36 sampleData
  refine ⟨h1 rfl (by decide), h3 rfl rfl, ?_⟩
  obtain ⟨-, -, -, h4'⟩ :=
    prompt_slot_exit_paths noTextConv pendingSession sampleStore tok36 sampleData
  exact h4' cancelInput tok36 (by decide) rfl

/-! ## Scraper and Deduplication Index (claims C2, C4, C8) -/

/-- Helper: the index after an article is the index before it, with the
article's full fingerprint added exactly when the article was fully
delivered. -/
theorem processArticle_newsList_eq (st : ScrapeState) (a : ScrapeInput) :
    (processArticle st a).1.newsList
      = match (processArticle st a).2.2 with
        | some fp => addSentNews fp st.newsList
        | none => st.newsList := by
  by_cases h1 : a.title = "" ∨ a.link = ""
  · simp [processArticle, h1]
  · by_cases h2 : tempFullIdentifier a.title a.link ∈ st.newsList
    · simp [processArticle, h1, h2]
    · cases hc : a.content with
      | none => simp [processArticle, h1, h2, hc]
      | some s =>
        by_cases h3 : fullFormatted a.title s a.link ∈ st.newsList
        · simp [processArticle, h1, h2, hc, h3]
        · cases hs1 : a.send1Ok <;> cases hs2 : a.send2Ok <;>
            simp [processArticle, h1, h2, hc, h3, hs1, hs2]

/-- Helper: facts available when an article was fully delivered: its
fingerprint was not yet in the index, both sends succeeded, and the item
notification was sent to the editors group. -/
theorem processArticle_delivered_spec (st : ScrapeState) (a : ScrapeInput)
    (fp : String) (h : (processArticle st a).2.2 = some fp) :
    fp ∉ st.newsList ∧ a.send1Ok = true ∧ a.send2Ok = true ∧
    Effect.sendMessage .editorsGroup (linkOnlyMessage a.title a.link)
      ∈ (processArticle st a).2.1 := by
  by_cases h1 : a.title = "" ∨ a.link = ""
  · simp [processArticle, h1] at h
  · by_cases h2 : tempFullIdentifier a.title a.link ∈ st.newsList
    · simp [processArticle, h1, h2] at h
    · cases hc : a.content with
      | none => simp [processArticle, h1, h2, hc] at h
      | some s =>
        by_cases h3 : fullFormatted a.title s a.link ∈ st.newsList
        · simp [processArticle, h1, h2, hc, h3] at h
        · cases hs1 : a.send1Ok <;> cases hs2 : a.send2Ok <;>
            simp [processArticle, h1, h2, hc, h3, hs1, hs2] at h ⊢
          exact h ▸ h3

/-- Helper: the index only grows. -/
theorem processArticle_mono (st : ScrapeState) (a : ScrapeInput) (fp : String)
    (h : fp ∈ st.newsList) : fp ∈ (processArticle st a).1.newsList := by
  rw [processArticle_newsList_eq]
  cases (processArticle st a).2.2 with
  | none => exact h
  | some fp' => exact List.mem_insert_of_mem h

/-- Helper: a delivered fingerprint is in the index afterwards. -/
theorem processArticle_delivered_mem (st : ScrapeState) (a : ScrapeInput)
    (fp : String) (h : (processArticle st a).2.2 = some fp) :
    fp ∈ (processArticle st a).1.newsList := by
  rw [processArticle_newsList_eq, h]
  exact List.mem_insert_self _ _

/-- Helper: the index only grows across a whole cycle. -/
theorem runScraperCycle_mono (c : List ScrapeInput) :
    ∀ (st : ScrapeState) (fp : String), fp ∈ st.newsList →
      fp ∈ (runScraperCycle st c).1.newsList := by
  induction c with
  | nil => intro st fp h; simpa [runScraperCycle] using h
  | cons a rest ih =>
    intro st fp h
    simpa [runScraperCycle] using ih _ fp (processArticle_mono st a fp h)

/-- Helper: a fingerprint already in the index is never delivered during a
cycle. -/
theorem runScraperCycle_count_zero (c : List ScrapeInput) :
    ∀ (st : ScrapeState) (fp : String), fp ∈ st.newsList →
      ((runScraperCycle st c).2.2).count fp = 0 := by
  induction c with
  | nil => intro st fp _; simp [runScraperCycle]
  | cons a rest ih =>
    intro st fp h
    have htail := ih _ fp (processArticle_mono st a fp h)
    cases hd : (processArticle st a).2.2 with
    | none => simp [runScraperCycle, hd, htail]
    | some fp' =>
      have hne : fp' ≠ fp := by
        intro he
        exact (processArticle_delivered_spec st a fp' hd).1 (he ▸ h)
      simp [runScraperCycle, hd, htail, List.count_cons, hne]

/-- Helper: a fingerprint delivered during a cycle is in the index at the
end of the cycle. -/
theorem runScraperCycle_delivered_mem (c : List ScrapeInput) :
    ∀ (st : ScrapeState) (fp : String), fp ∈ (runScraperCycle st c).2.2 →
      fp ∈ (runScraperCycle st c).1.newsList := by
  induction c with
  | nil => intro st fp h; simp [runScraperCycle] at h
  | cons a rest ih =>
    intro st fp h
    simp only [runScraperCycle, List.mem_append] at h
    rcases h with h | h
    · cases hd : (processArticle st a).2.2 with
      | none => simp [hd] at h
      | some fp' =>
        rw [hd] at h
        simp at h
        subst h
        simpa [runScraperCycle] using
          runScraperCycle_mono rest (processArticle st a).1 fp
            (processArticle_delivered_mem st a fp hd)
    · simpa [runScraperCycle] using ih (processArticle st a).1 fp h

/-- Helper: at most one delivery of a fingerprint per cycle, none if
already indexed. -/
theorem runScraperCycle_count_le (c : List ScrapeInput) :
    ∀ (st : ScrapeState) (fp : String),
      ((runScraperCycle st c).2.2).count fp
        ≤ if fp ∈ st.newsList then 0 else 1 := by
  induction c with
  | nil => intro st fp; simp [runScraperCycle]
  | cons a rest ih =>
    intro st fp
    by_cases hm : fp ∈ st.newsList
    · simpa [hm] using Nat.le_of_eq (runScraperCycle_count_zero (a :: rest) st fp hm)
    · rw [if_neg hm]
      have hsplit : ((runScraperCycle st (a :: rest)).2.2).count fp
          = ((processArticle st a).2.2.toList).count fp
            + ((runScraperCycle (processArticle st a).1 rest).2.2).count fp := by
        simp [runScraperCycle, List.count_append]
      rw [hsplit]
      cases hd : (processArticle st a).2.2 with
      | none =>
        have := ih (processArticle st a).1 fp
        have hle : ((runScraperCycle (processArticle st a).1 rest).2.2).count fp ≤ 1 := by
          refine le_trans this ?_
          split <;> omega
        simpa [hd] using hle
      | some fp' =>
        by_cases he : fp' = fp
        · subst he
          have hz := runScraperCycle_count_zero rest (processArticle st a).1 fp'
            (processArticle_delivered_mem st a fp' hd)
          simp [hd, hz, List.count_cons]
        · have := ih (processArticle st a).1 fp
          have hle : ((runScraperCycle (processArticle st a).1 rest).2.2).count fp ≤ 1 := by
            refine le_trans this ?_
            split <;> omega
          have hz : ((some fp' : Option String).toList).count fp = 0 := by
            simp [List.count_cons, he, Ne.symm he]
          omega

/-- Helper: the index only grows across a sequence of cycles. -/
theorem runCycles_mono (cs : List (List ScrapeInput)) :
    ∀ (st : ScrapeState) (fp : String), fp ∈ st.newsList →
      fp ∈ (runCycles st cs).1.newsList := by
  induction cs with
  | nil => intro st fp h; simpa [runCycles] using h
  | cons c rest ih =>
    intro st fp h
    simpa [runCycles] using ih _ fp (runScraperCycle_mono c st fp h)

/-- Helper: an indexed fingerprint is never delivered in any later cycle. -/
theorem runCycles_count_zero (cs : List (List ScrapeInput)) :
    ∀ (st : ScrapeState) (fp : String), fp ∈ st.newsList →
      ((runCycles st cs).2).count fp = 0 := by
  induction cs with
  | nil => intro st fp _; simp [runCycles]
  | cons c rest ih =>
    intro st fp h
    have hc := runScraperCycle_count_zero c st fp h
    have ht := ih _ fp (runScraperCycle_mono c st fp h)
    simp [runCycles, List.count_append, hc, ht]

/-- C2: across any sequence of scrape cycles, an item with a given
full-text fingerprint is fully delivered to the editors group at most once
(never, if the fingerprint is already indexed); and an article whose full
fingerprint is already in the index is skipped with no outbound send at
all. -/
theorem dedup_delivers_at_most_once (st : ScrapeState)
    (cycles : List (List ScrapeInput)) (fp : String) :
    ((runCycles st cycles).2).count fp ≤ (if fp ∈ st.newsList then 0 else 1) ∧
    (∀ (a : ScrapeInput) (s : String), a.content = some s →
      fullFormatted a.title s a.link ∈ st.newsList →
      ∀ ch txt, Effect.sendMessage ch txt ∉ (processArticle st a).2.1) := by
  constructor
  · induction cycles generalizing st with
    | nil => simp [runCycles]
    | cons c rest ih =>
      by_cases hm : fp ∈ st.newsList
      · simpa [hm] using Nat.le_of_eq (runCycles_count_zero (c :: rest) st fp hm)
      · rw [if_neg hm]
        have hsplit : ((runCycles st (c :: rest)).2).count fp
            = ((runScraperCycle st c).2.2).count fp
              + ((runCycles (runScraperCycle st c).1 rest).2).count fp := by
          simp [runCycles, List.count_append]
        rw [hsplit]
        have hcle : ((runScraperCycle st c).2.2).count fp ≤ 1 := by
          refine le_trans (runScraperCycle_count_le c st fp) ?_
          split <;> omega
        by_cases hdel : fp ∈ (runScraperCycle st c).2.2
        · have hz := runCycles_count_zero rest (runScraperCycle st c).1 fp
            (runScraperCycle_delivered_mem c st fp hdel)
          omega
        · have hz : ((runScraperCycle st c).2.2).count fp = 0 :=
            List.count_eq_zero.mpr hdel
          have := ih (runScraperCycle st c).1
          have hrle : ((runCycles (runScraperCycle st c).1 rest).2).count fp ≤ 1 := by
            refine le_trans this ?_
            split <;> omega
          omega
  · intro a s hc h3 ch txt
    by_cases h1 : a.title = "" ∨ a.link = ""
    · simp [processArticle, h1]
    · by_cases h2 : tempFullIdentifier a.title a.link ∈ st.newsList
      · simp [processArticle, h1, h2]
      · simp [processArticle, h1, h2, hc, h3]

/-- Witness for C2: the already-indexed fingerprint of `articleA` is never
delivered again and its rescrape emits no send. -/
theorem dedup_delivers_at_most_once_witness :
    ((runCycles seenScrapeState [[articleA2]]).2).count (fullFormatted "T" "S" "L")
      ≤ (if fullFormatted "T" "S" "L" ∈ seenScrapeState.newsList then 0 else 1) ∧
    Effect.sendMessage .editorsGroup (linkOnlyMessage "T" "L")
      ∉ (processArticle seenScrapeState articleA2).2.1 := by
  obtain ⟨h1, h2⟩ :=
    dedup_delivers_at_most_once seenScrapeState [[articleA2]] (fullFormatted "T" "S" "L")
  exact ⟨h1, h2 articleA2 "S" rfl (by decide) .editorsGroup (linkOnlyMessage "T" "L")⟩

/-- C4: the full-text fingerprint is added to the index only when both
notification sends to the editors group succeeded; a send failure leaves
the index unchanged (so the article stays eligible: article processing
depends on the state only through the index). -/
theorem index_add_only_after_send (st : ScrapeState) (a : ScrapeInput) :
    ((a.send1Ok = false ∨ a.send2Ok = false) →
      (processArticle st a).1.newsList = st.newsList) ∧
    (∀ fp, (processArticle st a).2.2 = some fp →
      a.send1Ok = true ∧ a.send2Ok = true ∧
      Effect.sendMessage .editorsGroup (linkOnlyMessage a.title a.link)
        ∈ (processArticle st a).2.1 ∧
      (processArticle st a).1.newsList = addSentNews fp st.newsList) ∧
    ((processArticle st a).1.newsList ≠ st.newsList →
      ∃ fp, (processArticle st a).2.2 = some fp) ∧
    (∀ (st' : ScrapeState) (a' : ScrapeInput), st'.newsList = st.newsList →
      (processArticle st' a').2.2 = (processArticle st a').2.2) := by
  refine ⟨?_, ?_, ?_, ?_⟩
  · intro hfail
    rw [processArticle_newsList_eq]
    cases hd : (processArticle st a).2.2 with
    | none => rfl
    | some fp =>
      obtain ⟨-, hs1, hs2, -⟩ := processArticle_delivered_spec st a fp hd
      rcases hfail with h | h
      · rw [hs1] at h; cases h
      · rw [hs2] at h; cases h
  · intro fp hd
    obtain ⟨-, hs1, hs2, hmem⟩ := processArticle_delivered_spec st a fp hd
    refine ⟨hs1, hs2, hmem, ?_⟩
    rw [processArticle_newsList_eq, hd]
  · intro hch
    cases hd : (processArticle st a).2.2 with
    | none =>
      exfalso
      apply hch
      rw [processArticle_newsList_eq, hd]
    | some fp => exact ⟨fp, rfl⟩
  · intro st' a' h
    by_cases h1 : a'.title = "" ∨ a'.link = ""
    · simp [processArticle, h1]
    · by_cases h2 : tempFullIdentifier a'.title a'.link ∈ st.newsList
      · simp [processArticle, h1, h2, h]
      · cases hc : a'.content with
        | none => simp [processArticle, h1, h2, h, hc]
        | some s =>
          by_cases h3 : fullFormatted a'.title s a'.link ∈ st.newsList
          · simp [processArticle, h1, h2, h, hc, h3]
          · cases hs1 : a'.send1Ok <;> cases hs2 : a'.send2Ok <;>
              simp [processArticle, h1, h2, h, hc, h3, hs1, hs2]

/-- Witness for C4: a failed delivery of `articleA` leaves the empty index
empty, and the successful delivery indexes exactly its fingerprint. -/
theorem index_add_only_after_send_witness :
    (processArticle emptyScrapeState
        { articleA with send2Ok := false }).1.newsList
      = emptyScrapeState.newsList ∧
    (processArticle emptyScrapeState articleA).1.newsList
      = addSentNews (fullFormatted "T" "S" "L") emptyScrapeState.newsList := by
  constructor
  · obtain ⟨h1, -, -, -⟩ :=
      index_add_only_after_send emptyScrapeState { articleA with send2Ok := false }
    exact h1 (Or.inr rfl)
  · obtain ⟨-, h2, -, -⟩ :=
      index_add_only_after_send emptyScrapeState articleA
    exact (h2 (fullFormatted "T" "S" "L") (by decide)).2.2.2

/-- C8 (code bug): the cheap title+link pre-check never matches a
previously delivered article, because the index only ever receives
full-text fingerprints.  Concretely: after `articleA` is delivered, its
cheap identifier is absent from the index, so rescraping the same title
and link fetches the full content again; only the post-fetch full-text
check skips it. -/
theorem cheap_precheck_misses_seen_article :
    (processArticle emptyScrapeState articleA).2.2 = some (fullFormatted "T" "S" "L") ∧
    (processArticle emptyScrapeState articleA).1.newsList = [fullFormatted "T" "S" "L"] ∧
    tempFullIdentifier "T" "L" ∉ (processArticle emptyScrapeState articleA).1.newsList ∧
    Effect.fetchContent "L"
      ∈ (processArticle (processArticle emptyScrapeState articleA).1 articleA2).2.1 ∧
    (processArticle (processArticle emptyScrapeState articleA).1 articleA2).2.2 = none := by
  refine ⟨by decide, by decide, by decide, by decide, by decide⟩

end WeeklyNews
